import Mathlib

set_option linter.unusedVariables false

/-!
Shallow embedding of the webapp-hello-world HTTP API (Go) for checking its
natural-language specification.  The Go sources embedded here are the ones
wired by cmd/server/main.go: internal/model/user.go, internal/model/instructor.go,
internal/model/course.go, internal/handler/user.go, internal/handler/instructor.go
and the PathValue-based internal/handler/course.go revision.

Modelling conventions
* UUIDs are natural numbers; google/uuid's Parse is modelled on the canonical
  36-character hyphenated form (8-4-4-4-12 hex digits).
* Timestamps are natural numbers; SQL CURRENT_TIMESTAMP is an explicit `now`
  argument threaded to every write.
* bcrypt is modelled as an ideal salted hash: GenerateFromPassword pairs the
  fresh salt with the plaintext, CompareHashAndPassword checks the plaintext
  component.  This preserves exactly what the code relies on: comparison
  succeeds iff the hash was generated from the given password.
* The relational store is a list of rows per table.  Uniqueness and
  foreign-key constraints declared by the SQL migrations are enforced by the
  store model, surfacing the lib/pq error strings that the handlers
  pattern-match on.  sql.ErrNoRows is the string "sql: no rows in result set".
* Go's http.ResponseWriter is modelled by `Resp`: the first WriteHeader call
  fixes the status (later calls are no-ops), every json Encode appends one
  JSON value to the body, and a header set after the status is written is not
  transmitted.
* encoding/json: struct fields are encoded in declaration order with their
  tag names, a `json:"-"` field is omitted; map keys are encoded in sorted
  order.
-/

/-- JSON values, as produced by encoding/json for the types this API returns. -/
inductive Json where
  | str : String → Json
  | num : Nat → Json
  | int : Int → Json
  | null : Json
  | obj : List (String × Json) → Json
  | arr : List Json → Json

/-- HTTP response writer state: status fixed by the first WriteHeader, a
WWW-Authenticate header, and the sequence of JSON-encoded bodies. -/
structure Resp where
  status : Option Nat
  wwwAuth : Option String
  body : List Json

/-- Fresh response writer, before the handler has written anything. -/
def Resp.empty : Resp := ⟨none, none, []⟩

/-- Go's WriteHeader: only the first call takes effect. -/
def Resp.writeHeader (r : Resp) (s : Nat) : Resp :=
  match r.status with
  | some _ => r
  | none => ⟨some s, r.wwwAuth, r.body⟩

/-- json.NewEncoder(w).Encode, which appends one JSON value to the body. -/
def Resp.encode (r : Resp) (j : Json) : Resp :=
  ⟨r.status, r.wwwAuth, r.body ++ [j]⟩

/-- Header().Set("WWW-Authenticate", v): transmitted only if the status has
not been written yet. -/
def Resp.setWwwAuth (r : Resp) (v : String) : Resp :=
  match r.status with
  | some _ => r
  | none => ⟨r.status, some v, r.body⟩

/-- The one-key error object `map[string]string\x7b"error": msg\x7d` every error
path encodes. -/
def errObj (msg : String) : Json := Json.obj [("error", Json.str msg)]

/-- Error messages appearing in a response body, for comparing bodies. -/
def respErrors (r : Resp) : List String :=
  r.body.filterMap fun j =>
    match j with
    | Json.obj [("error", Json.str s)] => some s
    | _ => none

/-- UUIDs are modelled as naturals. -/
abbrev Uuid := Nat

/-- Hex digit test used by the UUID parser model. -/
def isHexDigit (c : Char) : Bool :=
  (('0' ≤ c) && (c ≤ '9')) || (('a' ≤ c) && (c ≤ 'f')) || (('A' ≤ c) && (c ≤ 'F'))

/-- Numeric value of a hex digit. -/
def hexVal (c : Char) : Nat :=
  if ('0' ≤ c) && (c ≤ '9') then c.toNat - '0'.toNat
  else if ('a' ≤ c) && (c ≤ 'f') then c.toNat - 'a'.toNat + 10
  else if ('A' ≤ c) && (c ≤ 'F') then c.toNat - 'A'.toNat + 10
  else 0

/-- google/uuid's Parse, modelled on the canonical hyphenated form: 36
characters, hyphens at positions 8, 13, 18, 23, hex digits elsewhere.
Returns the 128-bit value as a natural. -/
def uuidParse (s : String) : Option Uuid :=
  let cs := s.toList
  if cs.length = 36 then
    let hyphens : List Nat := [8, 13, 18, 23]
    let shapeOk := (List.range 36).all fun i =>
      if hyphens.contains i then cs.getD i ' ' == '-'
      else isHexDigit (cs.getD i ' ')
    if shapeOk then
      some (cs.foldl (fun acc c => if c == '-' then acc else acc * 16 + hexVal c) 0)
    else none
  else none

/-- Ideal model of a bcrypt hash: the salt used at generation time together
with the hashed plaintext. -/
structure BcryptHash where
  salt : Nat
  pw : String
deriving DecidableEq

/-- bcrypt.GenerateFromPassword with a fresh random salt. -/
def bcryptGenerate (salt : Nat) (password : String) : BcryptHash := ⟨salt, password⟩

/-- bcrypt.CompareHashAndPassword: succeeds iff the hash was generated from
this password. -/
def bcryptCompare (h : BcryptHash) (password : String) : Bool := h.pw == password

/-- sql.ErrNoRows as the Go error string the code compares against. -/
def sqlErrNoRows : String := "sql: no rows in result set"

/-- Substring test on character lists (strings.Contains). -/
def listLeadsWith : List Char → List Char → Bool
  | _, [] => true
  | [], _ :: _ => false
  | a :: hs, b :: ns => a == b && listLeadsWith hs ns

/-- Substring search on character lists. -/
def listContainsSub : List Char → List Char → Bool
  | [], need => need.isEmpty
  | a :: hs, need => listLeadsWith (a :: hs) need || listContainsSub hs need

/-- strings.Contains. -/
def strContains (hay need : String) : Bool :=
  listContainsSub hay.toList need.toList

/-! ## internal/model/user.go -/

namespace model

/-- User row, mirroring the Go struct; the `Password` field carries the
json tag "-" and is therefore excluded from every JSON encoding. -/
structure User where
  id : Uuid
  firstName : String
  lastName : String
  username : String
  password : BcryptHash
  role : String
  email : String
  accountCreated : Nat
  accountUpdated : Nat
deriving DecidableEq

/-- CreateUserRequest from user.go. -/
structure CreateUserRequest where
  firstName : String
  lastName : String
  username : String
  password : String
  role : String
  email : String
deriving DecidableEq

/-- UpdateUserRequest from user.go: only these four fields are admitted. -/
structure UpdateUserRequest where
  firstName : String
  lastName : String
  username : String
  password : String
deriving DecidableEq

/-- CreateUserRequest.Validate from user.go, checks in source order. -/
def CreateUserRequest.Validate (r : CreateUserRequest) : Except String Unit :=
  if r.firstName == "" then .error "first name is required"
  else if r.username == "" then .error "username is required"
  else if r.password == "" then .error "password is required"
  else if r.role != "student" && r.role != "admin" && r.role != "instructor" then
    .error "role must be student, admin, or instructor"
  else if r.email == "" then .error "email is required"
  else .ok ()

/-- encoding/json on the User struct: fields in declaration order under their
tag names; Password (tag "-") is omitted. -/
def userToJson (u : User) : Json :=
  Json.obj [("id", Json.num u.id),
    ("first_name", Json.str u.firstName),
    ("last_name", Json.str u.lastName),
    ("username", Json.str u.username),
    ("role", Json.str u.role),
    ("email", Json.str u.email),
    ("account_created", Json.num u.accountCreated),
    ("account_updated", Json.num u.accountUpdated)]

/-- CreateUser from user.go: bcrypt-hash the password, INSERT into
webapp.users.  The store model enforces the UNIQUE constraints on username
and email declared by the migration, surfacing lib/pq's error strings
(username checked first in this model). -/
def CreateUser (db : List User) (now salt newId : Nat) (req : CreateUserRequest) :
    Except String (User × List User) :=
  let hashed := bcryptGenerate salt req.password
  if db.any (fun v => v.username == req.username) then
    .error "pq: duplicate key value violates unique constraint \"users_username_key\""
  else if db.any (fun v => v.email == req.email) then
    .error "pq: duplicate key value violates unique constraint \"users_email_key\""
  else
    let user : User := ⟨newId, req.firstName, req.lastName, req.username, hashed,
      req.role, req.email, now, now⟩
    .ok (user, db ++ [user])

/-- AuthenticateUser from user.go: SELECT by username, then bcrypt compare.
Absent row fails with "user not found", mismatch with "invalid password". -/
def AuthenticateUser (db : List User) (username password : String) :
    Except String User :=
  match db.find? (fun v => v.username == username) with
  | none => .error "user not found"
  | some u =>
    if bcryptCompare u.password password then .ok u
    else .error "invalid password"

/-- GetUserByID from user.go: SELECT by id, sql.ErrNoRows when absent. -/
def GetUserByID (db : List User) (userID : Uuid) : Except String User :=
  match db.find? (fun v => v.id == userID) with
  | none => .error sqlErrNoRows
  | some u => .ok u

/-- UpdateUser from user.go: dynamically built UPDATE.  Only non-empty request
fields produce SET clauses; account_updated = CURRENT_TIMESTAMP is always
appended.  When no field is supplied the code short-circuits and returns
GetUserByID without executing any UPDATE.  The store model enforces the
username UNIQUE constraint. -/
def UpdateUser (db : List User) (now salt : Nat) (userID : Uuid)
    (req : UpdateUserRequest) : Except String (User × List User) :=
  if req.firstName == "" && req.lastName == "" && req.username == "" &&
      req.password == "" then
    match GetUserByID db userID with
    | .error e => .error e
    | .ok u => .ok (u, db)
  else if req.username != "" &&
      db.any (fun v => v.id != userID && v.username == req.username) then
    .error "pq: duplicate key value violates unique constraint \"users_username_key\""
  else
    match db.find? (fun v => v.id == userID) with
    | none => .error sqlErrNoRows
    | some u =>
      let u' : User :=
        { u with
          firstName := if req.firstName != "" then req.firstName else u.firstName
          lastName := if req.lastName != "" then req.lastName else u.lastName
          username := if req.username != "" then req.username else u.username
          password := if req.password != "" then bcryptGenerate salt req.password
            else u.password
          accountUpdated := now }
      .ok (u', db.map fun v => if v.id == userID then u' else v)

end model

/-! ## internal/handler/user.go -/

namespace UserHandler

/-- createUser handler: decode body (none models an undecodable body),
validate, insert, and map the two pq unique-violation strings to 409. -/
def createUser (db : List model.User) (now salt newId : Nat)
    (body : Option model.CreateUserRequest) : Resp × List model.User :=
  let w := Resp.empty
  match body with
  | none => ((w.writeHeader 400).encode (errObj "Invalid request body"), db)
  | some req =>
    match req.Validate with
    | .error e => ((w.writeHeader 400).encode (errObj e), db)
    | .ok _ =>
      match model.CreateUser db now salt newId req with
      | .error e =>
        if e == "pq: duplicate key value violates unique constraint \"users_username_key\"" then
          ((w.writeHeader 409).encode (errObj "Username already exists"), db)
        else if e == "pq: duplicate key value violates unique constraint \"users_email_key\"" then
          ((w.writeHeader 409).encode (errObj "Email already exists"), db)
        else ((w.writeHeader 500).encode (errObj "Failed to create user"), db)
      | .ok (user, db') => ((w.writeHeader 201).encode (model.userToJson user), db')

/-- GetUser handler: basic auth, then return the authenticated user.  Both
authentication-failure kinds produce the same generic 401 response. -/
def GetUser (db : List model.User) (cred : Option (String × String)) : Resp :=
  let w := Resp.empty
  match cred with
  | none =>
    ((w.setWwwAuth "Basic realm=\"User Authentication Required\"").writeHeader 401).encode
      (errObj "Authentication required")
  | some (username, password) =>
    match model.AuthenticateUser db username password with
    | .error _ =>
      ((w.setWwwAuth "Basic realm=\"Invalid Credentials\"").writeHeader 401).encode
        (errObj "Invalid username or password")
    | .ok user => (w.writeHeader 200).encode (model.userToJson user)

end UserHandler

/-! ## internal/model/instructor.go -/

namespace model

/-- Instructor row, mirroring the Go struct. -/
structure Instructor where
  id : Uuid
  userId : Uuid
  name : String
  email : String
  dateAdded : Nat
  dateUpdated : Nat
deriving DecidableEq

/-- UpdateInstructorRequest: pointer fields, none means absent. -/
structure UpdateInstructorRequest where
  name : Option String
  email : Option String
deriving DecidableEq

/-- GetInstructorByID from instructor.go. -/
def GetInstructorByID (db : List model.Instructor) (instructorID : Uuid) :
    Except String Instructor :=
  match db.find? (fun v => v.id == instructorID) with
  | none => .error sqlErrNoRows
  | some i => .ok i

/-- UpdateInstructor from instructor.go: dynamically built UPDATE over the
supplied fields plus date_updated = CURRENT_TIMESTAMP; with no supplied field
the code short-circuits and returns GetInstructorByID without executing any
UPDATE.  The store model enforces the email UNIQUE constraint. -/
def UpdateInstructor (db : List model.Instructor) (now : Nat) (instructorID : Uuid)
    (req : UpdateInstructorRequest) : Except String (Instructor × List model.Instructor) :=
  match req.name, req.email with
  | none, none =>
    match GetInstructorByID db instructorID with
    | .error e => .error e
    | .ok i => .ok (i, db)
  | _, _ =>
    if req.email.any (fun e => db.any fun v => v.id != instructorID && v.email == e) then
      .error "pq: duplicate key value violates unique constraint \"instructors_email_key\""
    else
      match db.find? (fun v => v.id == instructorID) with
      | none => .error sqlErrNoRows
      | some i =>
        let i' : Instructor :=
          { i with
            name := req.name.getD i.name
            email := req.email.getD i.email
            dateUpdated := now }
        .ok (i', db.map fun v => if v.id == instructorID then i' else v)

end model

/-! ## internal/handler/instructor.go, authentication stage of ServeHTTP -/

namespace InstructorHandler

/-- The authentication block of InstructorHandler.ServeHTTP for non-GET
methods: missing credentials and failed verification each yield a generic
401; authenticated non-admin yields 403. -/
def serveAuth (db : List model.User) (cred : Option (String × String)) :
    Except Resp model.User :=
  let w := Resp.empty
  match cred with
  | none =>
    .error (((w.setWwwAuth "Basic realm=\"Instructor Authentication Required\"").writeHeader 401).encode
      (errObj "Authentication required"))
  | some (username, password) =>
    match model.AuthenticateUser db username password with
    | .error _ =>
      .error (((w.setWwwAuth "Basic realm=\"Invalid Credentials\"").writeHeader 401).encode
        (errObj "Invalid username or password"))
    | .ok user =>
      if user.role != "admin" then
        .error ((w.writeHeader 403).encode (errObj "Insufficient permissions"))
      else .ok user

end InstructorHandler

/-! ## internal/model/course.go -/

namespace model

/-- Course row, mirroring the Go struct.  `courseId` is the catalog course
number column; `id` is the row key. -/
structure Course where
  id : Uuid
  name : String
  semesterTerm : String
  creditHours : Int
  subjectCode : String
  courseId : Int
  semesterYear : Int
  dateCreated : Nat
  dateUpdated : Nat
  userId : Uuid
  instructorId : Uuid
deriving DecidableEq

/-- CreateCourseRequest from course.go. -/
structure CreateCourseRequest where
  name : String
  semesterTerm : String
  creditHours : Int
  subjectCode : String
  courseId : Int
  semesterYear : Int
  instructorId : Uuid
deriving DecidableEq

/-- UpdateCourseRequest from course.go: every field optional. -/
structure UpdateCourseRequest where
  name : Option String
  semesterTerm : Option String
  creditHours : Option Int
  subjectCode : Option String
  courseId : Option Int
  semesterYear : Option Int
  instructorId : Option Uuid
deriving DecidableEq

/-- Trace row, mirroring the Go struct plus the course_id column of the
traces table (the Go struct omits that column, so it is absent from the
JSON encoding). -/
structure Trace where
  id : Uuid
  userId : Uuid
  instructorId : Uuid
  courseId : Uuid
  status : String
  vectorId : Option String
  fileName : String
  bucketUrl : String
  dateCreated : Nat
  dateUpdated : Nat
deriving DecidableEq

/-- CreateCourseRequest.Validate from course.go, checks in source order.
uuid.Nil is 0 in the model. -/
def CreateCourseRequest.Validate (r : CreateCourseRequest) : Except String Unit :=
  if r.name == "" then .error "name is required"
  else if r.semesterTerm != "Fall" && r.semesterTerm != "Spring" &&
      r.semesterTerm != "Summer" then
    .error "semester_term must be 'Fall', 'Spring', or 'Summer'"
  else if r.creditHours ≤ 0 then .error "credit_hours must be greater than 0"
  else if r.subjectCode == "" then .error "subject_code is required"
  else if r.courseId < 1 || r.courseId > 99999999 then
    .error "course_id must be between 1 and 99999999"
  else if r.semesterYear < 2000 then
    .error "semester_year must be greater than or equal to 2000"
  else if r.instructorId == 0 then .error "instructor_id is required"
  else .ok ()

/-- UpdateCourseRequest.Validate from course.go: each supplied field must
meet the same constraint as on create. -/
def UpdateCourseRequest.Validate (r : UpdateCourseRequest) : Except String Unit :=
  if r.semesterTerm.any (fun t => t != "Fall" && t != "Spring" && t != "Summer") then
    .error "semester_term must be 'Fall', 'Spring', or 'Summer'"
  else if r.creditHours.any (fun c => c ≤ 0) then
    .error "credit_hours must be greater than 0"
  else if r.courseId.any (fun c => c < 1 || c > 99999999) then
    .error "course_id must be between 1 and 99999999"
  else if r.semesterYear.any (fun y => y < 2000) then
    .error "semester_year must be greater than or equal to 2000"
  else .ok ()

/-- encoding/json on the Course struct, fields in declaration order. -/
def courseToJson (c : Course) : Json :=
  Json.obj [("id", Json.num c.id),
    ("name", Json.str c.name),
    ("semester_term", Json.str c.semesterTerm),
    ("credit_hours", Json.int c.creditHours),
    ("subject_code", Json.str c.subjectCode),
    ("course_id", Json.int c.courseId),
    ("semester_year", Json.int c.semesterYear),
    ("date_created", Json.num c.dateCreated),
    ("date_updated", Json.num c.dateUpdated),
    ("user_id", Json.num c.userId),
    ("instructor_id", Json.num c.instructorId)]

/-- encoding/json on the Go Trace struct: no course_id field; a nil
vector_id encodes as null. -/
def traceToJson (t : Trace) : Json :=
  Json.obj [("id", Json.num t.id),
    ("user_id", Json.num t.userId),
    ("instructor_id", Json.num t.instructorId),
    ("status", Json.str t.status),
    ("vector_id", match t.vectorId with | none => Json.null | some v => Json.str v),
    ("file_name", Json.str t.fileName),
    ("bucket_url", Json.str t.bucketUrl),
    ("date_created", Json.num t.dateCreated),
    ("date_updated", Json.num t.dateUpdated)]

/-- CreateCourse from course.go: INSERT with generated id and timestamps.
The store model enforces the foreign keys on user_id and instructor_id
declared by the migration (user_id checked first in this model). -/
def CreateCourse (courses : List Course) (users : List User)
    (instructors : List Instructor) (now newId : Nat)
    (req : CreateCourseRequest) (userID : Uuid) :
    Except String (Course × List Course) :=
  if !(users.any fun u => u.id == userID) then
    .error "pq: insert or update on table \"courses\" violates foreign key constraint \"courses_user_id_fkey\""
  else if !(instructors.any fun i => i.id == req.instructorId) then
    .error "pq: insert or update on table \"courses\" violates foreign key constraint \"courses_instructor_id_fkey\""
  else
    let course : Course := ⟨newId, req.name, req.semesterTerm, req.creditHours,
      req.subjectCode, req.courseId, req.semesterYear, now, now, userID,
      req.instructorId⟩
    .ok (course, courses ++ [course])

/-- UpdateCourse from course.go: the UPDATE always sets user_id to the
authenticated caller and date_updated to CURRENT_TIMESTAMP, and sets each
supplied optional field.  No matching row surfaces as "course not found";
the store model enforces the two foreign keys (user_id first). -/
def UpdateCourse (courses : List Course) (users : List User)
    (instructors : List Instructor) (now : Nat) (courseID : Uuid)
    (req : UpdateCourseRequest) (userID : Uuid) :
    Except String (Course × List Course) :=
  match courses.find? (fun c => c.id == courseID) with
  | none => .error "course not found"
  | some c =>
    if !(users.any fun u => u.id == userID) then
      .error "pq: insert or update on table \"courses\" violates foreign key constraint \"courses_user_id_fkey\""
    else if req.instructorId.any (fun iid => !(instructors.any fun i => i.id == iid)) then
      .error "pq: insert or update on table \"courses\" violates foreign key constraint \"courses_instructor_id_fkey\""
    else
      let c' : Course :=
        { c with
          userId := userID
          name := req.name.getD c.name
          semesterTerm := req.semesterTerm.getD c.semesterTerm
          creditHours := req.creditHours.getD c.creditHours
          subjectCode := req.subjectCode.getD c.subjectCode
          courseId := req.courseId.getD c.courseId
          semesterYear := req.semesterYear.getD c.semesterYear
          instructorId := req.instructorId.getD c.instructorId
          dateUpdated := now }
      .ok (c', courses.map fun v => if v.id == courseID then c' else v)

/-- InsertTrace from course.go: one INSERT into webapp.traces.  Whether the
INSERT itself succeeds is an environment oracle `dbOk`; on failure the
store is unchanged and the pq error is returned. -/
def InsertTrace (traces : List Trace) (dbOk : Bool) (now newId : Nat)
    (userID instructorID : Uuid) (status : String) (courseID : Uuid)
    (vectorID : Option String) (fileName bucketURL : String) :
    Except String (List Trace) :=
  if dbOk then
    .ok (traces ++ [⟨newId, userID, instructorID, courseID, status, vectorID,
      fileName, bucketURL, now, now⟩])
  else .error "pq: connection refused"

/-- Descending insertion by date_created, for ORDER BY date_created DESC. -/
def insertDescByCreated (t : Trace) : List Trace → List Trace
  | [] => [t]
  | x :: xs =>
    if t.dateCreated ≤ x.dateCreated then x :: insertDescByCreated t xs
    else t :: x :: xs

/-- GetTracesByCourseID from course.go: SELECT the course's traces ordered
by date_created DESC. -/
def GetTracesByCourseID (traces : List Trace) (courseID : Uuid) : List Trace :=
  (traces.filter fun t => t.courseId == courseID).foldr insertDescByCreated []

/-- GetTraceByID from course.go: SELECT by course and trace id; an absent
row is converted by the model layer to the error "trace not found". -/
def GetTraceByID (traces : List Trace) (courseID traceID : Uuid) :
    Except String Trace :=
  match traces.find? (fun t => t.courseId == courseID && t.id == traceID) with
  | none => .error "trace not found"
  | some t => .ok t

/-- Modelled from the spec: model.DeleteTraceByID is called by the handler
but its definition is not among the provided sources.  The spec says traces
are deleted only by explicit id; modelled like the sibling delete
operations (DeleteInstructorByID, DeleteCourseByID): DELETE the rows
matching the course and trace id, with sql.ErrNoRows when no row was
affected. -/
def DeleteTraceByID (traces : List Trace) (courseID traceID : Uuid) :
    Except String (List Trace) :=
  let remaining := traces.filter fun t => !(t.courseId == courseID && t.id == traceID)
  if remaining.length == traces.length then .error sqlErrNoRows
  else .ok remaining

end model

/-! ## internal/handler/course.go (the PathValue-based revision wired by
cmd/server/main.go) -/

/-- Object Store Adapter environment: the outcome of one GCS write attempt
and the configured bucket name. -/
structure GcsEnv where
  outcome : Except String Unit
  bucketName : String

namespace CourseHandler

/-- authenticateRequest from course.go: extract basic-auth credentials,
verify them, then require the admin role.  On the role failure it writes the
403 response itself; all errors are returned to the caller. -/
def authenticateRequest (db : List model.User) (cred : Option (String × String))
    (w : Resp) : Resp × Except String model.User :=
  match cred with
  | none => (w, .error "authentication required")
  | some (username, password) =>
    match model.AuthenticateUser db username password with
    | .error e => (w, .error e)
    | .ok user =>
      if user.role != "admin" then
        ((w.writeHeader 403).encode (errObj "Insufficient permissions"),
          .error "insufficient permissions")
      else (w, .ok user)

/-- handleAuthError from course.go: sets the challenge header, writes 401
(a no-op when a status was already written) and encodes the error's own
message as the body. -/
def handleAuthError (w : Resp) (e : String) : Resp :=
  ((w.setWwwAuth "Basic realm=\"Course Authentication Required\"").writeHeader 401).encode
    (errObj e)

/-- uploadToGCS from course.go: one write attempt; on success the retrieval
URL is built from the bucket name and the object's name (the name the
object was created under). -/
def uploadToGCS (gcs : GcsEnv) (filename : String) : Except String String :=
  match gcs.outcome with
  | .error e => .error e
  | .ok _ =>
    .ok ("https://storage.googleapis.com/" ++ gcs.bucketName ++ "/" ++ filename)

/-- CreateCourse handler from course.go.  `body` is the decoded request
body (none models an undecodable body).  Returns the response and the
courses table afterward. -/
def CreateCourse (users : List model.User) (instructors : List model.Instructor)
    (courses : List model.Course) (now newId : Nat)
    (cred : Option (String × String)) (body : Option model.CreateCourseRequest) :
    Resp × List model.Course :=
  let w := Resp.empty
  match authenticateRequest users cred w with
  | (w, .error e) => (handleAuthError w e, courses)
  | (w, .ok user) =>
    match body with
    | none => ((w.writeHeader 400).encode (errObj "Invalid request body"), courses)
    | some req =>
      match req.Validate with
      | .error e => ((w.writeHeader 400).encode (errObj e), courses)
      | .ok _ =>
        match model.CreateCourse courses users instructors now newId req user.id with
        | .error e =>
          if strContains e "foreign key constraint" then
            ((w.writeHeader 400).encode (errObj "Invalid instructor_id"), courses)
          else
            ((w.writeHeader 500).encode (errObj "Failed to create course"), courses)
        | .ok (course, courses') =>
          ((w.writeHeader 201).encode (model.courseToJson course), courses')

/-- PatchCourse handler from course.go: admin-authenticated partial update;
the authenticated caller's id is passed to model.UpdateCourse. -/
def PatchCourse (users : List model.User) (instructors : List model.Instructor)
    (courses : List model.Course) (now : Nat) (cred : Option (String × String))
    (idStr : String) (body : Option model.UpdateCourseRequest) :
    Resp × List model.Course :=
  let w := Resp.empty
  match authenticateRequest users cred w with
  | (w, .error e) => (handleAuthError w e, courses)
  | (w, .ok user) =>
    if idStr == "" then
      ((w.writeHeader 400).encode (errObj "Course ID is required"), courses)
    else
      match uuidParse idStr with
      | none => ((w.writeHeader 400).encode (errObj "Invalid course ID format"), courses)
      | some courseID =>
        match body with
        | none => ((w.writeHeader 400).encode (errObj "Invalid request body"), courses)
        | some req =>
          match req.Validate with
          | .error e => ((w.writeHeader 400).encode (errObj e), courses)
          | .ok _ =>
            match model.UpdateCourse courses users instructors now courseID req user.id with
            | .error e =>
              if strContains e "foreign key constraint" then
                ((w.writeHeader 400).encode (errObj "Invalid user_id or instructor_id"), courses)
              else if e == "course not found" then
                ((w.writeHeader 404).encode (errObj "Course not found"), courses)
              else
                ((w.writeHeader 500).encode (errObj "Failed to update course"), courses)
            | .ok (course, courses') =>
              ((w.writeHeader 200).encode (model.courseToJson course), courses')

/-- Input of one trace-upload request, after HTTP decoding: the basic-auth
credentials, the raw course_id path value, whether ParseMultipartForm
succeeded, the multipart file part (some filename when present), and the
file_name / instructor_id / vector_id form values ("" when absent). -/
structure TraceUploadInput where
  cred : Option (String × String)
  courseIdStr : String
  multipartOk : Bool
  fileUpload : Option String
  fileNameField : String
  instructorIdStr : String
  vectorIdField : String

/-- Result of one trace-upload request: the response, the traces table
afterward, and the object names durably written to the bucket. -/
structure TraceUploadResult where
  resp : Resp
  traces : List model.Trace
  gcsObjects : List String

/-- HandleTraceUpload from course.go: authenticate (admin), validate the
course id, the multipart form, the file part, file_name and instructor_id;
then one GCS write attempt under a fresh unique name, and exactly one
InsertTrace recording the outcome: status "uploaded" with the retrieval URL
on success, status "failed" with bucket_url "" on failure.  `freshToken`
is the uuid.New token prefixed to the object name; `dbOk` is the INSERT
oracle. -/
def HandleTraceUpload (users : List model.User) (traces : List model.Trace)
    (gcsObjects : List String) (gcs : GcsEnv) (dbOk : Bool) (now newTraceId : Nat)
    (freshToken : String) (inp : TraceUploadInput) : TraceUploadResult :=
  let w := Resp.empty
  match authenticateRequest users inp.cred w with
  | (w, .error e) => ⟨handleAuthError w e, traces, gcsObjects⟩
  | (w, .ok user) =>
    match uuidParse inp.courseIdStr with
    | none => ⟨(w.writeHeader 400).encode (errObj "Invalid course_id format"), traces, gcsObjects⟩
    | some courseID =>
      if !inp.multipartOk then
        ⟨(w.writeHeader 400).encode (errObj "Failed to parse multipart form"), traces, gcsObjects⟩
      else
        match inp.fileUpload with
        | none => ⟨(w.writeHeader 400).encode (errObj "File is required"), traces, gcsObjects⟩
        | some uploadedFilename =>
          if inp.fileNameField == "" then
            ⟨(w.writeHeader 400).encode (errObj "file_name is required"), traces, gcsObjects⟩
          else if inp.instructorIdStr == "" then
            ⟨(w.writeHeader 400).encode (errObj "instructor_id is required"), traces, gcsObjects⟩
          else
            match uuidParse inp.instructorIdStr with
            | none => ⟨(w.writeHeader 400).encode (errObj "Invalid instructor_id format"), traces, gcsObjects⟩
            | some instructorID =>
              let vectorID : Option String :=
                if inp.vectorIdField != "" then some inp.vectorIdField else none
              let uniqueName := freshToken ++ "-" ++ uploadedFilename
              match uploadToGCS gcs uniqueName with
              | .error _ =>
                match model.InsertTrace traces dbOk now newTraceId user.id instructorID
                    "failed" courseID vectorID inp.fileNameField "" with
                | .error _ =>
                  ⟨(w.writeHeader 500).encode (errObj "Failed to insert trace record"),
                    traces, gcsObjects⟩
                | .ok traces' =>
                  ⟨(w.writeHeader 500).encode (errObj "Failed to upload file to GCS"),
                    traces', gcsObjects⟩
              | .ok bucketURL =>
                match model.InsertTrace traces dbOk now newTraceId user.id instructorID
                    "uploaded" courseID vectorID inp.fileNameField bucketURL with
                | .error _ =>
                  ⟨(w.writeHeader 500).encode (errObj "Failed to insert trace record"),
                    traces, gcsObjects ++ [uniqueName]⟩
                | .ok traces' =>
                  ⟨(w.writeHeader 201).encode (Json.obj
                      [("bucket_url", Json.str bucketURL),
                       ("message", Json.str "File uploaded successfully")]),
                    traces', gcsObjects ++ [uniqueName]⟩

/-- GetTracesByCourseID handler from course.go: authenticate (admin via
authenticateRequest), parse the course id, list the course's traces. -/
def GetTracesByCourseID (users : List model.User) (traces : List model.Trace)
    (cred : Option (String × String)) (courseIdStr : String) : Resp :=
  let w := Resp.empty
  match authenticateRequest users cred w with
  | (w, .error e) => handleAuthError w e
  | (w, .ok _) =>
    match uuidParse courseIdStr with
    | none => (w.writeHeader 400).encode (errObj "Invalid course_id format")
    | some courseID =>
      let ts := model.GetTracesByCourseID traces courseID
      (w.writeHeader 200).encode (Json.obj [("data", Json.arr (ts.map model.traceToJson))])

/-- GetTraceByID handler from course.go: authenticate, re-check the admin
role, parse both ids, fetch.  The handler compares the model error against
sql.ErrNoRows, which model.GetTraceByID never returns (it rewrites it to
"trace not found"), so an absent trace reaches the 500 branch. -/
def GetTraceByID (users : List model.User) (traces : List model.Trace)
    (cred : Option (String × String)) (courseIdStr traceIdStr : String) : Resp :=
  let w := Resp.empty
  match authenticateRequest users cred w with
  | (w, .error e) => handleAuthError w e
  | (w, .ok user) =>
    if user.role != "admin" then
      (w.writeHeader 403).encode (errObj "Insufficient permissions")
    else
      match uuidParse courseIdStr with
      | none => (w.writeHeader 400).encode (errObj "Invalid course_id format")
      | some courseID =>
        match uuidParse traceIdStr with
        | none => (w.writeHeader 400).encode (errObj "Invalid trace_id format")
        | some traceID =>
          match model.GetTraceByID traces courseID traceID with
          | .error e =>
            if e == sqlErrNoRows then
              (w.writeHeader 404).encode (errObj "Trace not found")
            else
              (w.writeHeader 500).encode (errObj "Failed to retrieve trace")
          | .ok t => (w.writeHeader 200).encode (model.traceToJson t)

/-- DeleteTraceByID handler from course.go: authenticate (admin via
authenticateRequest), parse both ids, delete. -/
def DeleteTraceByID (users : List model.User) (traces : List model.Trace)
    (cred : Option (String × String)) (courseIdStr traceIdStr : String) :
    Resp × List model.Trace :=
  let w := Resp.empty
  match authenticateRequest users cred w with
  | (w, .error e) => (handleAuthError w e, traces)
  | (w, .ok _) =>
    match uuidParse courseIdStr with
    | none => ((w.writeHeader 400).encode (errObj "Invalid course_id format"), traces)
    | some courseID =>
      match uuidParse traceIdStr with
      | none => ((w.writeHeader 400).encode (errObj "Invalid trace_id format"), traces)
      | some traceID =>
        match model.DeleteTraceByID traces courseID traceID with
        | .error e =>
          if e == sqlErrNoRows then
            ((w.writeHeader 404).encode (errObj "Trace not found"), traces)
          else
            ((w.writeHeader 500).encode (errObj "Failed to delete trace"), traces)
        | .ok traces' =>
          ((w.writeHeader 200).encode (Json.obj
            [("message", Json.str "Trace deleted successfully")]), traces')

end CourseHandler

/-! ## Shared fixtures and helper lemmas -/

/-- Keys of a JSON object. -/
def jsonObjKeys : Json → List String
  | Json.obj fs => fs.map Prod.fst
  | _ => []

/-- Demo admin user. -/
def demoAlice : model.User :=
  ⟨1, "Ada", "Admin", "alice", ⟨7, "pw"⟩, "admin", "alice@example.com", 5, 5⟩

/-- demoAlice after a PUT that renames the first name at clock 20. -/
def demoAliceNew : model.User :=
  ⟨1, "New", "Admin", "alice", ⟨7, "pw"⟩, "admin", "alice@example.com", 5, 20⟩

/-- Demo non-admin (student) user. -/
def demoStu : model.User :=
  ⟨2, "Sam", "Student", "stu", ⟨8, "pw"⟩, "student", "stu@example.com", 5, 5⟩

/-- Demo users table. -/
def demoUsers : List model.User := [demoAlice, demoStu]

/-- Demo instructor row. -/
def demoInstructor : model.Instructor :=
  ⟨3, 1, "Ines", "ines@example.com", 5, 5⟩

/-- Demo course row. -/
def demoCourse : model.Course :=
  ⟨4, "Systems", "Fall", 4, "CSYE", 6225, 2025, 5, 5, 1, 3⟩

/-- Empty User patch body: every optional field absent. -/
def emptyUserPatch : model.UpdateUserRequest := ⟨"", "", "", ""⟩

/-- Empty Instructor patch body. -/
def emptyInstructorPatch : model.UpdateInstructorRequest := ⟨none, none⟩

/-- Empty Course patch body. -/
def emptyCoursePatch : model.UpdateCourseRequest :=
  ⟨none, none, none, none, none, none, none⟩

/-! ## C9 -/

/-- C9: the User type's Password field carries the json tag "-", so the
stored password hash never appears in a serialized User: changing only the
password hash leaves the JSON encoding identical, and the encoded keys are
exactly the eight non-password fields, none of them "password". -/
theorem user_json_omits_password :
    (∀ (u : model.User) (h : BcryptHash),
      model.userToJson { u with password := h } = model.userToJson u) ∧
    (∀ u : model.User,
      jsonObjKeys (model.userToJson u) =
        ["id", "first_name", "last_name", "username", "role", "email",
          "account_created", "account_updated"]) ∧
    (∀ u : model.User,
      ((jsonObjKeys (model.userToJson u)).all fun k => k != "password") = true) := by
  refine ⟨fun u h => rfl, fun u => rfl, fun u => ?_⟩
  rw [show jsonObjKeys (model.userToJson u) =
    ["id", "first_name", "last_name", "username", "role", "email",
      "account_created", "account_updated"] from rfl]
  decide

/-! ## C2 -/

/-- C2 counterexample: with the clock at 10, an empty patch body on a User
whose update timestamp is 5 returns the user with the timestamp still 5 —
UpdateUser short-circuits and runs no UPDATE, so the timestamp does not
advance; likewise for an Instructor. -/
theorem patch_empty_body_timestamp_cex :
    model.UpdateUser [demoAlice] 10 9 1 emptyUserPatch = .ok (demoAlice, [demoAlice]) ∧
    demoAlice.accountUpdated = 5 ∧
    model.UpdateInstructor [demoInstructor] 10 3 emptyInstructorPatch =
      .ok (demoInstructor, [demoInstructor]) ∧
    demoInstructor.dateUpdated = 5 ∧
    (5 : Nat) ≠ 10 := ⟨rfl, rfl, rfl, rfl, by decide⟩

/-- C2 (amended): an empty patch body refreshes the update timestamp only
for Course (whose UPDATE always runs, also overwriting user_id with the
caller); for User and Instructor an empty patch body executes no UPDATE at
all — the entity is returned with every field, including the update
timestamp, unchanged. -/
theorem patch_empty_body_amended
    (udb : List model.User) (idb : List model.Instructor)
    (cdb : List model.Course) (users : List model.User)
    (insts : List model.Instructor) (now salt : Nat)
    (uid iid cid actorId : Uuid)
    (u : model.User) (i : model.Instructor) (c : model.Course)
    (hu : model.GetUserByID udb uid = .ok u)
    (hi : model.GetInstructorByID idb iid = .ok i)
    (hc : cdb.find? (fun v => v.id == cid) = some c)
    (hfk : users.any (fun v => v.id == actorId) = true) :
    model.UpdateUser udb now salt uid emptyUserPatch = .ok (u, udb) ∧
    model.UpdateInstructor idb now iid emptyInstructorPatch = .ok (i, idb) ∧
    model.UpdateCourse cdb users insts now cid emptyCoursePatch actorId =
      .ok ({ c with userId := actorId, dateUpdated := now },
        cdb.map fun v => if v.id == cid then
          { c with userId := actorId, dateUpdated := now } else v) := by
  refine ⟨?_, ?_, ?_⟩
  · simp [model.UpdateUser, emptyUserPatch, hu]
  · simp [model.UpdateInstructor, emptyInstructorPatch, hi]
  · simp [model.UpdateCourse, emptyCoursePatch, hc, hfk]

/-- C2 amended-claim witness at a concrete input. -/
theorem patch_empty_body_amended_witness :
    model.GetUserByID [demoAlice] 1 = .ok demoAlice ∧
    model.GetInstructorByID [demoInstructor] 3 = .ok demoInstructor ∧
    [demoCourse].find? (fun v => v.id == 4) = some demoCourse ∧
    ([demoAlice].any fun v => v.id == 1) = true ∧
    (model.UpdateUser [demoAlice] 10 9 1 emptyUserPatch = .ok (demoAlice, [demoAlice]) ∧
     model.UpdateInstructor [demoInstructor] 10 3 emptyInstructorPatch =
       .ok (demoInstructor, [demoInstructor]) ∧
     model.UpdateCourse [demoCourse] [demoAlice] [demoInstructor] 10 4
         emptyCoursePatch 1 =
       .ok ({ demoCourse with userId := 1, dateUpdated := 10 },
         [demoCourse].map fun v => if v.id == 4 then
           { demoCourse with userId := 1, dateUpdated := 10 } else v)) :=
  ⟨rfl, rfl, rfl, rfl,
    patch_empty_body_amended [demoAlice] [demoInstructor] [demoCourse]
      [demoAlice] [demoInstructor] 10 9 1 3 4 1 demoAlice demoInstructor
      demoCourse rfl rfl rfl rfl⟩

/-! ## C10 -/

/-- Replacing the row that a find? located, by a row that still satisfies
the predicate, makes find? return the replacement. -/
theorem find_map_replace (uid : Uuid) (u' : model.User)
    (hid : (u'.id == uid) = true) :
    ∀ (db : List model.User) (u : model.User),
      db.find? (fun v => v.id == uid) = some u →
      (db.map fun v => if v.id == uid then u' else v).find?
        (fun v => v.id == uid) = some u'
  | [], u, h => by simp at h
  | x :: xs, u, h => by
    by_cases hx : (x.id == uid) = true
    · simp [List.find?, hx, hid]
    · have hx' : (x.id == uid) = false := by simpa using hx
      rw [List.find?_cons_of_neg _ (by simp [hx'])] at h
      simp only [List.map_cons]
      rw [if_neg (by simp [hx'])]
      rw [List.find?_cons_of_neg _ (by simp [hx'])]
      exact find_map_replace uid u' hid xs u h

/-- C10: a User PUT can write only first_name, last_name, username and
password: whenever UpdateUser succeeds on a stored row, the returned row
keeps the stored id, role, email and account_created, and it is what the
table now holds under that id. -/
theorem updateUser_put_frame (db : List model.User) (now salt : Nat) (uid : Uuid)
    (req : model.UpdateUserRequest) (u u' : model.User) (db' : List model.User)
    (hfind : db.find? (fun v => v.id == uid) = some u)
    (hupd : model.UpdateUser db now salt uid req = .ok (u', db')) :
    u'.id = u.id ∧ u'.role = u.role ∧ u'.email = u.email ∧
    u'.accountCreated = u.accountCreated ∧
    db'.find? (fun v => v.id == uid) = some u' := by
  have hpred := List.find?_some hfind
  unfold model.UpdateUser at hupd
  split at hupd
  · unfold model.GetUserByID at hupd
    rw [hfind] at hupd
    simp only [Except.ok.injEq, Prod.mk.injEq] at hupd
    obtain ⟨rfl, rfl⟩ := hupd
    exact ⟨rfl, rfl, rfl, rfl, hfind⟩
  · split at hupd
    · exact absurd hupd (by simp)
    · rw [hfind] at hupd
      simp only [Except.ok.injEq, Prod.mk.injEq] at hupd
      obtain ⟨rfl, rfl⟩ := hupd
      refine ⟨rfl, rfl, rfl, rfl, ?_⟩
      exact find_map_replace uid _ (by simpa using hpred) db u hfind

/-- C10 witness: renaming demoAlice's first name keeps id, role, email and
account_created, and stores the returned row. -/
theorem updateUser_put_frame_witness :
    [demoAlice].find? (fun v => v.id == 1) = some demoAlice ∧
    model.UpdateUser [demoAlice] 20 9 1 ⟨"New", "", "", ""⟩ =
      .ok (demoAliceNew, [demoAliceNew]) ∧
    (demoAliceNew.id = demoAlice.id ∧ demoAliceNew.role = demoAlice.role ∧
     demoAliceNew.email = demoAlice.email ∧
     demoAliceNew.accountCreated = demoAlice.accountCreated ∧
     [demoAliceNew].find? (fun v => v.id == 1) = some demoAliceNew) :=
  ⟨rfl, rfl,
    updateUser_put_frame [demoAlice] 20 9 1 ⟨"New", "", "", ""⟩ demoAlice
      demoAliceNew [demoAliceNew] rfl rfl⟩

/-! ## C3 -/

/-- C3 counterexample: on a course route, a wrong password for the existing
user alice and a nonexistent username bob both yield 401 but with different
error bodies — the handler encodes the underlying error message, so the two
failure kinds are distinguishable, contrary to the claim. -/
theorem auth_failure_distinguishable_cex :
    (CourseHandler.GetTracesByCourseID demoUsers [] (some ("alice", "wrong")) "x").status =
      some 401 ∧
    (CourseHandler.GetTracesByCourseID demoUsers [] (some ("bob", "pw")) "x").status =
      some 401 ∧
    respErrors (CourseHandler.GetTracesByCourseID demoUsers [] (some ("alice", "wrong")) "x") =
      ["invalid password"] ∧
    respErrors (CourseHandler.GetTracesByCourseID demoUsers [] (some ("bob", "pw")) "x") =
      ["user not found"] ∧
    ["invalid password"] ≠ ["user not found"] := ⟨rfl, rfl, rfl, rfl, by decide⟩

/-- C3 (amended): wrong-password and unknown-username failures are reported
identically (one generic 401 body) on the user and instructor routes, and
both give 401 on the course routes too — but there the error body carries
the underlying message, "invalid password" versus "user not found", so the
two failure kinds are distinguishable on every course/trace route. -/
theorem auth_failure_uniform_except_course (db : List model.User)
    (u1 p1 u2 p2 : String)
    (h1 : model.AuthenticateUser db u1 p1 = .error "invalid password")
    (h2 : model.AuthenticateUser db u2 p2 = .error "user not found") :
    UserHandler.GetUser db (some (u1, p1)) = UserHandler.GetUser db (some (u2, p2)) ∧
    InstructorHandler.serveAuth db (some (u1, p1)) =
      InstructorHandler.serveAuth db (some (u2, p2)) ∧
    ∀ (traces : List model.Trace) (cidStr : String),
      (CourseHandler.GetTracesByCourseID db traces (some (u1, p1)) cidStr).status =
        some 401 ∧
      (CourseHandler.GetTracesByCourseID db traces (some (u2, p2)) cidStr).status =
        some 401 ∧
      respErrors (CourseHandler.GetTracesByCourseID db traces (some (u1, p1)) cidStr) =
        ["invalid password"] ∧
      respErrors (CourseHandler.GetTracesByCourseID db traces (some (u2, p2)) cidStr) =
        ["user not found"] := by
  refine ⟨?_, ?_, ?_⟩
  · simp [UserHandler.GetUser, h1, h2]
  · simp [InstructorHandler.serveAuth, h1, h2]
  · intro traces cidStr
    refine ⟨?_, ?_, ?_, ?_⟩ <;>
      simp [CourseHandler.GetTracesByCourseID, CourseHandler.authenticateRequest,
        CourseHandler.handleAuthError, h1, h2, respErrors, errObj, Resp.empty,
        Resp.setWwwAuth, Resp.writeHeader, Resp.encode]

/-- C3 amended-claim witness at a concrete input. -/
theorem auth_failure_uniform_except_course_witness :
    model.AuthenticateUser demoUsers "alice" "wrong" = .error "invalid password" ∧
    model.AuthenticateUser demoUsers "bob" "pw" = .error "user not found" ∧
    (UserHandler.GetUser demoUsers (some ("alice", "wrong")) =
       UserHandler.GetUser demoUsers (some ("bob", "pw")) ∧
     InstructorHandler.serveAuth demoUsers (some ("alice", "wrong")) =
       InstructorHandler.serveAuth demoUsers (some ("bob", "pw")) ∧
     ∀ (traces : List model.Trace) (cidStr : String),
       (CourseHandler.GetTracesByCourseID demoUsers traces (some ("alice", "wrong")) cidStr).status =
         some 401 ∧
       (CourseHandler.GetTracesByCourseID demoUsers traces (some ("bob", "pw")) cidStr).status =
         some 401 ∧
       respErrors (CourseHandler.GetTracesByCourseID demoUsers traces
           (some ("alice", "wrong")) cidStr) = ["invalid password"] ∧
       respErrors (CourseHandler.GetTracesByCourseID demoUsers traces
           (some ("bob", "pw")) cidStr) = ["user not found"]) :=
  ⟨rfl, rfl,
    auth_failure_uniform_except_course demoUsers "alice" "wrong" "bob" "pw" rfl rfl⟩

/-! ## C4 -/

/-- C4 counterexample: an authenticated non-admin (student) is refused with
403 Forbidden both when listing a course's traces and when deleting a trace
by id — contrary to the claim that these succeed past the authorization
check for every authenticated user. -/
theorem trace_routes_nonadmin_forbidden_cex :
    (CourseHandler.GetTracesByCourseID demoUsers [] (some ("stu", "pw")) "x").status =
      some 403 ∧
    (CourseHandler.DeleteTraceByID demoUsers [] (some ("stu", "pw")) "x" "y").1.status =
      some 403 := ⟨rfl, rfl⟩

/-- C4 (amended): every trace route goes through authenticateRequest, which
requires the admin role, so for any authenticated non-admin user listing a
course's traces, deleting a trace and single-trace lookup all return 403
Forbidden (delete leaving the traces table unchanged); the single-trace
lookup merely repeats the admin check redundantly — there is no asymmetry. -/
theorem trace_routes_require_admin (db : List model.User)
    (traces : List model.Trace) (u p : String) (user : model.User)
    (cs ts : String)
    (hauth : model.AuthenticateUser db u p = .ok user)
    (hrole : user.role ≠ "admin") :
    (CourseHandler.GetTracesByCourseID db traces (some (u, p)) cs).status = some 403 ∧
    (CourseHandler.DeleteTraceByID db traces (some (u, p)) cs ts).1.status = some 403 ∧
    (CourseHandler.DeleteTraceByID db traces (some (u, p)) cs ts).2 = traces ∧
    (CourseHandler.GetTraceByID db traces (some (u, p)) cs ts).status = some 403 := by
  have hb : (user.role == "admin") = false := beq_eq_false_iff_ne.mpr hrole
  refine ⟨?_, ?_, ?_, ?_⟩ <;>
    simp [CourseHandler.GetTracesByCourseID, CourseHandler.DeleteTraceByID,
      CourseHandler.GetTraceByID, CourseHandler.authenticateRequest,
      CourseHandler.handleAuthError, hauth, hb, bne, Resp.empty,
      Resp.setWwwAuth, Resp.writeHeader, Resp.encode]

/-- C4 amended-claim witness at a concrete input. -/
theorem trace_routes_require_admin_witness :
    model.AuthenticateUser demoUsers "stu" "pw" = .ok demoStu ∧
    demoStu.role ≠ "admin" ∧
    ((CourseHandler.GetTracesByCourseID demoUsers [] (some ("stu", "pw")) "x").status =
       some 403 ∧
     (CourseHandler.DeleteTraceByID demoUsers [] (some ("stu", "pw")) "x" "y").1.status =
       some 403 ∧
     (CourseHandler.DeleteTraceByID demoUsers [] (some ("stu", "pw")) "x" "y").2 = [] ∧
     (CourseHandler.GetTraceByID demoUsers [] (some ("stu", "pw")) "x" "y").status =
       some 403) :=
  ⟨rfl, by decide,
    trace_routes_require_admin demoUsers [] "stu" "pw" demoStu "x" "y" rfl (by decide)⟩

/-! ## C5 -/

/-- Shape of a successful UpdateCourse: the returned row carries the
caller's id and the fresh timestamp, and the table maps the old row to it. -/
theorem updateCourse_ok_shape (courses : List model.Course)
    (users : List model.User) (insts : List model.Instructor) (now : Nat)
    (cid : Uuid) (req : model.UpdateCourseRequest) (uid : Uuid)
    (c' : model.Course) (courses' : List model.Course)
    (h : model.UpdateCourse courses users insts now cid req uid = .ok (c', courses')) :
    c'.userId = uid ∧ c'.dateUpdated = now ∧
    courses' = courses.map fun v => if v.id == cid then c' else v := by
  unfold model.UpdateCourse at h
  split at h
  · exact absurd h (by simp)
  · split at h
    · exact absurd h (by simp)
    · split at h
      · exact absurd h (by simp)
      · simp only [Except.ok.injEq, Prod.mk.injEq] at h
        obtain ⟨rfl, rfl⟩ := h
        exact ⟨rfl, rfl, rfl⟩

/-- C5: on every successful Course patch the stored course's user_id is
overwritten with the authenticated caller's id, whatever optional fields
the body supplied: the 200 response returns the updated row, that row's
user_id is the caller's, and every stored row under the patched id carries
the caller's id. -/
theorem patchCourse_sets_last_editor
    (users : List model.User) (insts : List model.Instructor)
    (courses : List model.Course) (now : Nat) (u p idStr : String)
    (user : model.User) (cid : Uuid) (req : model.UpdateCourseRequest)
    (c' : model.Course) (courses' : List model.Course)
    (hauth : model.AuthenticateUser users u p = .ok user)
    (hadmin : user.role = "admin")
    (hparse : uuidParse idStr = some cid)
    (hval : req.Validate = .ok ())
    (hupd : model.UpdateCourse courses users insts now cid req user.id =
      .ok (c', courses')) :
    CourseHandler.PatchCourse users insts courses now (some (u, p)) idStr (some req) =
      ((Resp.empty.writeHeader 200).encode (model.courseToJson c'), courses') ∧
    c'.userId = user.id ∧
    (∀ v ∈ courses', v.id = cid → v.userId = user.id) := by
  obtain ⟨hcu, hcd, hmap⟩ :=
    updateCourse_ok_shape courses users insts now cid req user.id c' courses' hupd
  have hne : idStr ≠ "" := by
    intro h0
    rw [h0] at hparse
    rw [show uuidParse "" = none from rfl] at hparse
    cases hparse
  have hne' : (idStr == "") = false := beq_eq_false_iff_ne.mpr hne
  refine ⟨?_, hcu, ?_⟩
  · simp [CourseHandler.PatchCourse, CourseHandler.authenticateRequest, hauth,
      hadmin, hne', hparse, hval, hupd]
  · intro v hv hvid
    subst hmap
    obtain ⟨v0, hv0, hv0eq⟩ := List.mem_map.mp hv
    by_cases h0 : (v0.id == cid) = true
    · rw [if_pos h0] at hv0eq
      subst hv0eq
      exact hcu
    · rw [if_neg h0] at hv0eq
      subst hv0eq
      exact absurd (by simpa using hvid) (by simpa using h0)

/-- Course body patching only the name. -/
def demoCourseReq : model.UpdateCourseRequest :=
  ⟨some "NewName", none, none, none, none, none, none⟩

/-- demoCourse after alice patches the name at clock 30. -/
def demoCoursePatched : model.Course :=
  ⟨4, "NewName", "Fall", 4, "CSYE", 6225, 2025, 5, 30, 1, 3⟩

/-- C5 witness at a concrete input. -/
theorem patchCourse_sets_last_editor_witness :
    model.AuthenticateUser demoUsers "alice" "pw" = .ok demoAlice ∧
    demoAlice.role = "admin" ∧
    uuidParse "00000000-0000-0000-0000-000000000004" = some 4 ∧
    demoCourseReq.Validate = .ok () ∧
    model.UpdateCourse [demoCourse] demoUsers [demoInstructor] 30 4 demoCourseReq
      demoAlice.id = .ok (demoCoursePatched, [demoCoursePatched]) ∧
    (CourseHandler.PatchCourse demoUsers [demoInstructor] [demoCourse] 30
        (some ("alice", "pw")) "00000000-0000-0000-0000-000000000004"
        (some demoCourseReq) =
      ((Resp.empty.writeHeader 200).encode (model.courseToJson demoCoursePatched),
        [demoCoursePatched]) ∧
     demoCoursePatched.userId = demoAlice.id ∧
     (∀ v ∈ [demoCoursePatched], v.id = 4 → v.userId = demoAlice.id)) :=
  ⟨rfl, rfl, rfl, rfl, rfl,
    patchCourse_sets_last_editor demoUsers [demoInstructor] [demoCourse] 30
      "alice" "pw" "00000000-0000-0000-0000-000000000004" demoAlice 4
      demoCourseReq demoCoursePatched [demoCoursePatched] rfl rfl rfl rfl rfl⟩

/-! ## C6 -/

/-- C6: creating two users with the same username yields 201 for the first;
the second create is refused with 409 Conflict (the unique-constraint
violation string is mapped to Conflict, not a generic failure) and exactly
one user row exists afterward. -/
theorem createUser_duplicate_username_conflict
    (req1 req2 : model.CreateUserRequest) (now1 salt1 id1 now2 salt2 id2 : Nat)
    (hv1 : req1.Validate = .ok ())
    (hv2 : req2.Validate = .ok ())
    (huser : req2.username = req1.username) :
    (UserHandler.createUser [] now1 salt1 id1 (some req1)).1.status = some 201 ∧
    ∃ u : model.User,
      (UserHandler.createUser [] now1 salt1 id1 (some req1)).2 = [u] ∧
      u.username = req1.username ∧
      (UserHandler.createUser [u] now2 salt2 id2 (some req2)).1.status = some 409 ∧
      (UserHandler.createUser [u] now2 salt2 id2 (some req2)).2 = [u] := by
  refine ⟨?_,
    ⟨id1, req1.firstName, req1.lastName, req1.username,
      bcryptGenerate salt1 req1.password, req1.role, req1.email, now1, now1⟩,
    ?_, rfl, ?_, ?_⟩
  · simp [UserHandler.createUser, hv1, model.CreateUser, Resp.empty,
      Resp.writeHeader, Resp.encode]
  · simp [UserHandler.createUser, hv1, model.CreateUser, Resp.empty,
      Resp.writeHeader, Resp.encode]
  · simp [UserHandler.createUser, hv2, model.CreateUser, huser, Resp.empty,
      Resp.writeHeader, Resp.encode]
  · simp [UserHandler.createUser, hv2, model.CreateUser, huser, Resp.empty,
      Resp.writeHeader, Resp.encode]

/-- First demo registration body. -/
def demoReq1 : model.CreateUserRequest :=
  ⟨"Fred", "Low", "fred", "secret", "student", "fred1@example.com"⟩

/-- Second demo registration body: same username, different email. -/
def demoReq2 : model.CreateUserRequest :=
  ⟨"Greg", "Mow", "fred", "other", "student", "fred2@example.com"⟩

/-- C6 witness at a concrete input. -/
theorem createUser_duplicate_username_conflict_witness :
    demoReq1.Validate = .ok () ∧
    demoReq2.Validate = .ok () ∧
    demoReq2.username = demoReq1.username ∧
    ((UserHandler.createUser [] 1 0 10 (some demoReq1)).1.status = some 201 ∧
     ∃ u : model.User,
       (UserHandler.createUser [] 1 0 10 (some demoReq1)).2 = [u] ∧
       u.username = demoReq1.username ∧
       (UserHandler.createUser [u] 2 0 11 (some demoReq2)).1.status = some 409 ∧
       (UserHandler.createUser [u] 2 0 11 (some demoReq2)).2 = [u]) :=
  ⟨rfl, rfl, rfl,
    createUser_duplicate_username_conflict demoReq1 demoReq2 1 0 10 2 0 11
      rfl rfl rfl⟩

/-! ## C7 -/

/-- What a successful CreateCourseRequest.Validate guarantees about the
documented numeric and enumeration rules. -/
theorem createCourse_validate_ok (req : model.CreateCourseRequest)
    (h : req.Validate = .ok ()) :
    (req.semesterTerm = "Fall" ∨ req.semesterTerm = "Spring" ∨
      req.semesterTerm = "Summer") ∧
    0 < req.creditHours ∧ 1 ≤ req.courseId ∧ req.courseId ≤ 99999999 ∧
    2000 ≤ req.semesterYear := by
  unfold model.CreateCourseRequest.Validate at h
  split_ifs at h with h1 h2 h3 h4 h5 h6 h7
  simp only [Bool.or_eq_true, decide_eq_true_eq, not_or] at h5
  simp only [Bool.and_eq_true, bne_iff_ne] at h2
  refine ⟨by tauto, by omega, by omega, by omega, by omega⟩

/-- C7: a Course create whose body violates one of the documented
validation rules (term outside the three allowed values, non-positive
credit hours, course number outside 1..99999999, or year before 2000) is
answered with 400 BadRequest and persists nothing. -/
theorem createCourse_validation_rejected
    (users : List model.User) (insts : List model.Instructor)
    (courses : List model.Course) (now newId : Nat) (u p : String)
    (user : model.User) (req : model.CreateCourseRequest)
    (hauth : model.AuthenticateUser users u p = .ok user)
    (hadmin : user.role = "admin")
    (hbad : (req.semesterTerm ≠ "Fall" ∧ req.semesterTerm ≠ "Spring" ∧
        req.semesterTerm ≠ "Summer") ∨
      req.creditHours ≤ 0 ∨ req.courseId < 1 ∨ req.courseId > 99999999 ∨
      req.semesterYear < 2000) :
    (CourseHandler.CreateCourse users insts courses now newId (some (u, p))
      (some req)).1.status = some 400 ∧
    (CourseHandler.CreateCourse users insts courses now newId (some (u, p))
      (some req)).2 = courses := by
  have hval : ∃ e, req.Validate = .error e := by
    cases hv : req.Validate with
    | error e => exact ⟨e, rfl⟩
    | ok a =>
      exfalso
      cases a
      obtain ⟨hterm, hch, hlo, hhi, hyr⟩ := createCourse_validate_ok req hv
      rcases hbad with h | h | h | h | h
      · rcases hterm with ht | ht | ht <;> tauto
      · omega
      · omega
      · omega
      · omega
  obtain ⟨e, he⟩ := hval
  constructor <;>
    simp [CourseHandler.CreateCourse, CourseHandler.authenticateRequest, hauth,
      hadmin, he, Resp.empty, Resp.writeHeader, Resp.encode]

/-- Course creation body with an invalid semester term. -/
def demoBadCourseReq : model.CreateCourseRequest :=
  ⟨"Systems", "Winter", 4, "CSYE", 6225, 2025, 3⟩

/-- C7 witness at a concrete input. -/
theorem createCourse_validation_rejected_witness :
    model.AuthenticateUser demoUsers "alice" "pw" = .ok demoAlice ∧
    demoAlice.role = "admin" ∧
    (demoBadCourseReq.semesterTerm ≠ "Fall" ∧
      demoBadCourseReq.semesterTerm ≠ "Spring" ∧
      demoBadCourseReq.semesterTerm ≠ "Summer") ∧
    ((CourseHandler.CreateCourse demoUsers [demoInstructor] [] 1 20
        (some ("alice", "pw")) (some demoBadCourseReq)).1.status = some 400 ∧
     (CourseHandler.CreateCourse demoUsers [demoInstructor] [] 1 20
        (some ("alice", "pw")) (some demoBadCourseReq)).2 = []) :=
  ⟨rfl, rfl, by decide,
    createCourse_validation_rejected demoUsers [demoInstructor] [] 1 20 "alice"
      "pw" demoAlice demoBadCourseReq rfl rfl (Or.inl (by decide))⟩

/-! ## C1 -/

/-- Retrieval URLs built by uploadToGCS are never the empty string. -/
theorem url_ne_empty (b n : String) :
    "https://storage.googleapis.com/" ++ b ++ "/" ++ n ≠ "" := by
  intro h
  have hl := congrArg String.length h
  rw [String.length_append, String.length_append, String.length_append] at hl
  rw [show ("https://storage.googleapis.com/" : String).length = 31 from rfl] at hl
  rw [show ("" : String).length = 0 from rfl] at hl
  omega

/-- C1: a trace upload that passes validation, with the Trace INSERT
succeeding, inserts exactly one Trace row; on adapter success the row has
status "uploaded" and the adapter's non-empty retrieval URL, on adapter
failure status "failed" and bucket_url "". -/
theorem handleTraceUpload_exactly_one_row
    (users : List model.User) (traces : List model.Trace) (gobjs : List String)
    (gcs : GcsEnv) (now nid : Nat) (tok : String)
    (inp : CourseHandler.TraceUploadInput) (u p : String) (user : model.User)
    (cid iid : Uuid) (fname : String)
    (hcred : inp.cred = some (u, p))
    (hauth : model.AuthenticateUser users u p = .ok user)
    (hadmin : user.role = "admin")
    (hcid : uuidParse inp.courseIdStr = some cid)
    (hmp : inp.multipartOk = true)
    (hfile : inp.fileUpload = some fname)
    (hfn : inp.fileNameField ≠ "")
    (hinz : inp.instructorIdStr ≠ "")
    (hiid : uuidParse inp.instructorIdStr = some iid) :
    ∃ t : model.Trace,
      (CourseHandler.HandleTraceUpload users traces gobjs gcs true now nid tok inp).traces =
        traces ++ [t] ∧
      (gcs.outcome = .ok () →
        t.status = "uploaded" ∧
        t.bucketUrl = "https://storage.googleapis.com/" ++ gcs.bucketName ++ "/" ++
          (tok ++ "-" ++ fname) ∧
        t.bucketUrl ≠ "") ∧
      (∀ e, gcs.outcome = .error e → t.status = "failed" ∧ t.bucketUrl = "") := by
  have hfn' : (inp.fileNameField == "") = false := beq_eq_false_iff_ne.mpr hfn
  have hinz' : (inp.instructorIdStr == "") = false := beq_eq_false_iff_ne.mpr hinz
  cases hout : gcs.outcome with
  | ok a =>
    cases a
    simp only [CourseHandler.HandleTraceUpload, CourseHandler.authenticateRequest,
      CourseHandler.uploadToGCS, model.InsertTrace, hcred, hauth, hadmin, hcid,
      hmp, hfile, hfn', hinz', hiid, hout, bne_self_eq_false, Bool.not_true,
      if_false, if_true]
    refine ⟨_, rfl, fun _ => ⟨rfl, rfl, url_ne_empty _ _⟩, fun e he => ?_⟩
    exact absurd he (by simp)
  | error e0 =>
    simp only [CourseHandler.HandleTraceUpload, CourseHandler.authenticateRequest,
      CourseHandler.uploadToGCS, model.InsertTrace, hcred, hauth, hadmin, hcid,
      hmp, hfile, hfn', hinz', hiid, hout, bne_self_eq_false, Bool.not_true,
      if_false, if_true]
    refine ⟨_, rfl, fun hok => ?_, fun e he => ⟨rfl, rfl⟩⟩
    exact absurd hok (by simp)

/-- Valid concrete trace upload request. -/
def demoUpload : CourseHandler.TraceUploadInput :=
  ⟨some ("alice", "pw"), "00000000-0000-0000-0000-000000000004", true,
    some "syllabus.pdf", "syllabus", "00000000-0000-0000-0000-000000000003", ""⟩

/-- C1 witness at a concrete input. -/
theorem handleTraceUpload_exactly_one_row_witness :
    demoUpload.cred = some ("alice", "pw") ∧
    model.AuthenticateUser demoUsers "alice" "pw" = .ok demoAlice ∧
    demoAlice.role = "admin" ∧
    uuidParse demoUpload.courseIdStr = some 4 ∧
    demoUpload.multipartOk = true ∧
    demoUpload.fileUpload = some "syllabus.pdf" ∧
    demoUpload.fileNameField ≠ "" ∧
    demoUpload.instructorIdStr ≠ "" ∧
    uuidParse demoUpload.instructorIdStr = some 3 ∧
    ∃ t : model.Trace,
      (CourseHandler.HandleTraceUpload demoUsers [] [] ⟨.ok (), "bkt"⟩ true 10 9
        "tok" demoUpload).traces = [] ++ [t] ∧
      ((⟨.ok (), "bkt"⟩ : GcsEnv).outcome = .ok () →
        t.status = "uploaded" ∧
        t.bucketUrl = "https://storage.googleapis.com/" ++ "bkt" ++ "/" ++
          ("tok" ++ "-" ++ "syllabus.pdf") ∧
        t.bucketUrl ≠ "") ∧
      (∀ e, (⟨.ok (), "bkt"⟩ : GcsEnv).outcome = .error e →
        t.status = "failed" ∧ t.bucketUrl = "") :=
  ⟨rfl, rfl, rfl, rfl, rfl, rfl, by decide, by decide, rfl,
    handleTraceUpload_exactly_one_row demoUsers [] [] ⟨.ok (), "bkt"⟩ 10 9 "tok"
      demoUpload "alice" "pw" demoAlice 4 3 "syllabus.pdf" rfl rfl rfl rfl rfl
      rfl (by decide) (by decide) rfl⟩

/-! ## C8 -/

/-- C8: an authenticated trace upload that fails validation (unparseable
course id, missing file part, missing file_name, or missing/unparseable
instructor id) is answered with 400 BadRequest and has no side effect: no
trace row is inserted and nothing is written to the bucket. -/
theorem traceUpload_validation_no_side_effect
    (users : List model.User) (traces : List model.Trace) (gobjs : List String)
    (gcs : GcsEnv) (dbOk : Bool) (now nid : Nat) (tok : String)
    (inp : CourseHandler.TraceUploadInput) (u p : String) (user : model.User)
    (hcred : inp.cred = some (u, p))
    (hauth : model.AuthenticateUser users u p = .ok user)
    (hadmin : user.role = "admin")
    (hbad : uuidParse inp.courseIdStr = none ∨ inp.fileUpload = none ∨
      inp.fileNameField = "" ∨ inp.instructorIdStr = "" ∨
      uuidParse inp.instructorIdStr = none) :
    (CourseHandler.HandleTraceUpload users traces gobjs gcs dbOk now nid tok
      inp).resp.status = some 400 ∧
    (CourseHandler.HandleTraceUpload users traces gobjs gcs dbOk now nid tok
      inp).traces = traces ∧
    (CourseHandler.HandleTraceUpload users traces gobjs gcs dbOk now nid tok
      inp).gcsObjects = gobjs := by
  cases hc : uuidParse inp.courseIdStr with
  | none =>
    simp [CourseHandler.HandleTraceUpload, CourseHandler.authenticateRequest,
      hcred, hauth, hadmin, hc, Resp.empty, Resp.writeHeader, Resp.encode]
  | some cid =>
    by_cases hm : inp.multipartOk = true
    · cases hf : inp.fileUpload with
      | none =>
        simp [CourseHandler.HandleTraceUpload, CourseHandler.authenticateRequest,
          hcred, hauth, hadmin, hc, hm, hf, Resp.empty, Resp.writeHeader,
          Resp.encode]
      | some f =>
        by_cases hfn : inp.fileNameField = ""
        · simp [CourseHandler.HandleTraceUpload, CourseHandler.authenticateRequest,
            hcred, hauth, hadmin, hc, hm, hf, hfn, Resp.empty, Resp.writeHeader,
            Resp.encode]
        · by_cases his : inp.instructorIdStr = ""
          · simp [CourseHandler.HandleTraceUpload, CourseHandler.authenticateRequest,
              hcred, hauth, hadmin, hc, hm, hf, hfn, his, Resp.empty,
              Resp.writeHeader, Resp.encode]
          · cases hip : uuidParse inp.instructorIdStr with
            | none =>
              simp [CourseHandler.HandleTraceUpload, CourseHandler.authenticateRequest,
                hcred, hauth, hadmin, hc, hm, hf, hfn, his, hip, Resp.empty,
                Resp.writeHeader, Resp.encode]
            | some iid =>
              exfalso
              rcases hbad with h | h | h | h | h
              · rw [hc] at h; cases h
              · rw [hf] at h; cases h
              · exact hfn h
              · exact his h
              · rw [hip] at h; cases h
    · have hm' : inp.multipartOk = false := by
        cases hmv : inp.multipartOk
        · rfl
        · exact absurd hmv hm
      simp [CourseHandler.HandleTraceUpload, CourseHandler.authenticateRequest,
        hcred, hauth, hadmin, hc, hm', Resp.empty, Resp.writeHeader, Resp.encode]

/-- Trace upload request with an unparseable course id. -/
def demoBadUpload : CourseHandler.TraceUploadInput :=
  ⟨some ("alice", "pw"), "not-a-uuid", true, some "syllabus.pdf", "syllabus",
    "00000000-0000-0000-0000-000000000003", ""⟩

/-- C8 witness at a concrete input. -/
theorem traceUpload_validation_no_side_effect_witness :
    demoBadUpload.cred = some ("alice", "pw") ∧
    model.AuthenticateUser demoUsers "alice" "pw" = .ok demoAlice ∧
    demoAlice.role = "admin" ∧
    uuidParse demoBadUpload.courseIdStr = none ∧
    ((CourseHandler.HandleTraceUpload demoUsers [] [] ⟨.ok (), "bkt"⟩ true 10 9
        "tok" demoBadUpload).resp.status = some 400 ∧
     (CourseHandler.HandleTraceUpload demoUsers [] [] ⟨.ok (), "bkt"⟩ true 10 9
        "tok" demoBadUpload).traces = [] ∧
     (CourseHandler.HandleTraceUpload demoUsers [] [] ⟨.ok (), "bkt"⟩ true 10 9
        "tok" demoBadUpload).gcsObjects = []) :=
  ⟨rfl, rfl, rfl, rfl,
    traceUpload_validation_no_side_effect demoUsers [] [] ⟨.ok (), "bkt"⟩ true
      10 9 "tok" demoBadUpload "alice" "pw" demoAlice rfl rfl rfl (Or.inl rfl)⟩
